import Mathlib

/-!
Verification of the ImpromptuPresenter session state machine.

Shallow embedding of `src/app/page.tsx` (the session state machine,
timing and capture orchestration) together with the collaborator
contracts of `src/ai/flows/generate-presentation-images.ts` and
`src/ai/flows/provide-presentation-feedback.ts`.

External collaborator outcomes (image generation result, feedback
result, microphone acquisition outcome, FileReader outcome, the
recorder's data events) are parameters of the embedded operations, so
every control path of the page is a pure function of them.
-/

namespace ImpromptuPresenter

/-- Fixed slide display duration, `SLIDE_DURATION_MS = 3000` in page.tsx. -/
def SLIDE_DURATION_MS : Nat := 3000

/-- Fixed countdown start, `COUNTDOWN_START = 3` in page.tsx. -/
def COUNTDOWN_START : Nat := 3

/-- `type AppStage` of page.tsx. -/
inductive AppStage where
  | idle
  | generatingImages
  | countdown
  | slideshow
  | fetchingFeedback
  | showFeedback
deriving DecidableEq, Repr

/-- `ProvidePresentationFeedbackOutput`: four feedback strings. -/
structure Feedback where
  clarityFeedback : String
  pacingFeedback : String
  contentRelevanceFeedback : String
  overallFeedback : String
deriving DecidableEq, Repr

/-- The React state of `ImpromptuPresenterPage` (the Session aggregate).
`slideProgress` is the percentage shown by the progress bar, a rational
in the embedding since the code computes `elapsed / SLIDE_DURATION_MS * 100`. -/
structure Session where
  topic : String
  images : List String
  currentSlideIndex : Nat
  countdownValue : Nat
  feedback : Option Feedback
  stage : AppStage
  error : Option String
  slideProgress : ℚ
  audioUnavailable : Bool
deriving DecidableEq

/-- Initial `useState` values of page.tsx lines 23-31. -/
def initialSession : Session :=
  { topic := ""
    images := []
    currentSlideIndex := 0
    countdownValue := COUNTDOWN_START
    feedback := none
    stage := AppStage.idle
    error := none
    slideProgress := 0
    audioUnavailable := false }

/-- The recorder refs: `mediaRecorderRef` (is a recorder currently
recording) and `audioChunksRef` (sizes of the buffered chunks; the page
never reads chunk contents, only the concatenated blob size). -/
structure RecState where
  recording : Bool
  chunks : List Nat
deriving DecidableEq, Repr

/-- Outcome of the image-generation collaborator as observed by
`handleTopicSubmit`: the promise either resolves with a response whose
three fields may be missing or empty (JS-falsy), or rejects with an
error message. -/
structure GenResponse where
  image1 : Option String
  image2 : Option String
  image3 : Option String
deriving DecidableEq, Repr

inductive GenResult where
  | ok (r : GenResponse)
  | err (msg : String)
deriving DecidableEq, Repr

/-- JS truthiness of `string | undefined` as used in
`result && result.image1 && result.image2 && result.image3`. -/
def truthy : Option String → Bool
  | none => false
  | some s => s ≠ ""

/-- Outcome of the feedback collaborator: resolve with a structured
result or reject with an error message. -/
inductive FbResult where
  | ok (f : Feedback)
  | err (msg : String)
deriving DecidableEq, Repr

/-- Collaborator invocations observable from the page. -/
inductive Ev where
  | imageGen
  | feedbackCall
deriving DecidableEq, Repr

/-- JS `topic.trim()`: strip leading and trailing whitespace.  Defined
structurally over the character list so that concrete inputs evaluate. -/
def jsTrim (s : String) : String :=
  String.mk (((s.data.dropWhile Char.isWhitespace).reverse.dropWhile
    Char.isWhitespace).reverse)

/-- `handleTopicSubmit` (page.tsx lines 61-84), as a function of the
collaborator outcome.  Returns the new session, the list of `setStage`
calls performed, and the collaborator invocations. -/
def handleTopicSubmit (gen : GenResult) (s : Session) :
    Session × List AppStage × List Ev :=
  if jsTrim s.topic = "" then
    ({ s with error := some "Please enter a topic." }, [], [])
  else
    let s1 := { s with error := none, audioUnavailable := false,
                       stage := AppStage.generatingImages }
    match gen with
    | GenResult.ok r =>
      if truthy r.image1 && truthy r.image2 && truthy r.image3 then
        ({ s1 with images := [r.image1.getD "", r.image2.getD "", r.image3.getD ""],
                   stage := AppStage.countdown },
         [AppStage.generatingImages, AppStage.countdown], [Ev.imageGen])
      else
        ({ s1 with
             error := some "Failed to generate images: Failed to generate images or received invalid response.",
             stage := AppStage.idle },
         [AppStage.generatingImages, AppStage.idle], [Ev.imageGen])
    | GenResult.err msg =>
        ({ s1 with error := some ("Failed to generate images: " ++ msg),
                   stage := AppStage.idle },
         [AppStage.generatingImages, AppStage.idle], [Ev.imageGen])

/-- `startRecording` (page.tsx lines 86-118): clears the chunk buffer,
discards any previous recorder, then either acquires the microphone
(recorder active) or fails without throwing.  Returns the new recorder
state and the boolean the caller receives. -/
def startRecording (captureOk : Bool) : RecState × Bool :=
  ({ recording := captureOk, chunks := [] }, captureOk)

/-- The `ondataavailable` handler (page.tsx lines 96-100): a chunk is
buffered only when `event.data.size > 0`. -/
def ondataavailable (chunks : List Nat) (size : Nat) : List Nat :=
  if 0 < size then chunks ++ [size] else chunks

/-- The chunk buffer after a sequence of data events with the given
sizes, starting from the empty buffer `startRecording` installs. -/
def capturedChunks (events : List Nat) : List Nat :=
  events.foldl ondataavailable []

/-- Deliver a sequence of data events to the recorder: the handler only
exists while a recorder is active. -/
def recordEvents (events : List Nat) (rec : RecState) : RecState :=
  if rec.recording then { rec with chunks := events.foldl ondataavailable rec.chunks }
  else rec

/-- Fallback stored when `audioUnavailable` (page.tsx lines 127-132). -/
def micUnavailableFeedback : Feedback :=
  { clarityFeedback := "N/A (microphone unavailable or permission denied)"
    pacingFeedback := "N/A (microphone unavailable or permission denied)"
    contentRelevanceFeedback := "N/A (microphone unavailable or permission denied)"
    overallFeedback := "Presentation completed. Audio feedback skipped as microphone was not available or permission was denied." }

/-- Fallback stored when the recorder was not active (page.tsx lines 143-148). -/
def recordingIssueFeedback : Feedback :=
  { clarityFeedback := "N/A (recording issue)"
    pacingFeedback := "N/A (recording issue)"
    contentRelevanceFeedback := "N/A (recording issue)"
    overallFeedback := "Presentation completed. Feedback skipped due to a recording issue." }

/-- Fallback stored when the harvested blob is zero-length (page.tsx lines 159-164). -/
def noAudioFeedback : Feedback :=
  { clarityFeedback := "N/A (no audio captured)"
    pacingFeedback := "N/A (no audio captured)"
    contentRelevanceFeedback := "N/A (no audio captured)"
    overallFeedback := "No audio was captured during the recording." }

/-- Fallback stored when the feedback collaborator rejects (page.tsx lines 181-186). -/
def errorFetchingFeedback : Feedback :=
  { clarityFeedback := "Error fetching feedback."
    pacingFeedback := "Error fetching feedback."
    contentRelevanceFeedback := "Error fetching feedback."
    overallFeedback := "Error fetching feedback." }

/-- Fallback stored when the FileReader fails to encode the blob (page.tsx lines 194-199). -/
def processingErrorFeedback : Feedback :=
  { clarityFeedback := "Error processing audio."
    pacingFeedback := "Error processing audio."
    contentRelevanceFeedback := "Error processing audio."
    overallFeedback := "Error processing audio." }

/-- `stopRecordingAndGetFeedback` (page.tsx lines 120-206) run to
quiescence (including the recorder's `onstop` handler and the
FileReader callbacks), as a function of the feedback-collaborator
outcome `fb` and the FileReader outcome `readerOk`.  Returns the new
session, the ordered list of `setStage` calls, and the collaborator
invocations.  The harvested blob size is the sum of the buffered chunk
sizes.

On a failed read the FileReader fires `error` and then `loadend`, so
both registered handlers run: `onerror` stores the processing-error
fallback and sets ShowFeedback, then `onloadend` runs with a null
`reader.result`, invokes `providePresentationFeedback` with a null data
URI — which always rejects, since the flow's input schema requires a
string — so its catch overwrites the feedback with the
"error fetching feedback" fallback and its finally sets ShowFeedback
again.  The returned session is the quiesced state (last write wins);
the transient processing-error write is not part of it. -/
def stopRecordingAndGetFeedback (fb : FbResult) (readerOk : Bool)
    (rec : RecState) (s : Session) : Session × List AppStage × List Ev :=
  if s.audioUnavailable then
    ({ s with feedback := some micUnavailableFeedback, stage := AppStage.showFeedback },
     [AppStage.showFeedback], [])
  else if ¬ rec.recording then
    ({ s with feedback := some recordingIssueFeedback, stage := AppStage.showFeedback },
     [AppStage.showFeedback], [])
  else
    -- setStage("fetchingFeedback"), then recorder.stop() fires onstop
    let blobSize := rec.chunks.sum
    if blobSize = 0 then
      ({ s with stage := AppStage.showFeedback, feedback := some noAudioFeedback },
       [AppStage.fetchingFeedback, AppStage.showFeedback], [])
    else if readerOk then
      match fb with
      | FbResult.ok f =>
        ({ s with stage := AppStage.showFeedback, feedback := some f },
         [AppStage.fetchingFeedback, AppStage.showFeedback], [Ev.feedbackCall])
      | FbResult.err _ =>
        ({ s with stage := AppStage.showFeedback, feedback := some errorFetchingFeedback },
         [AppStage.fetchingFeedback, AppStage.showFeedback], [Ev.feedbackCall])
    else
      ({ s with stage := AppStage.showFeedback, feedback := some errorFetchingFeedback },
       [AppStage.fetchingFeedback, AppStage.showFeedback, AppStage.showFeedback],
       [Ev.feedbackCall])

/-- The countdown-reaches-zero branch of the countdown effect
(page.tsx lines 211-218): clear the error, attempt to start recording,
record the outcome in `audioUnavailable`, enter the slideshow at slide 0. -/
def countdownZeroEffect (captureOk : Bool) (s : Session) : RecState × Session :=
  let (rec, ok) := startRecording captureOk
  (rec, { s with error := none, audioUnavailable := !ok,
                 stage := AppStage.slideshow, currentSlideIndex := 0 })

/-- The slide-elapsed callback iterated over the whole slideshow
(page.tsx lines 239-245): while more slides remain advance the index,
on the last slide call `stopRecordingAndGetFeedback`.  `fuel` bounds
the number of slide timers that fire; `s.images.length` suffices.
Returns the indices of the slides displayed, then the results of the
final stop. -/
def runSlides (fb : FbResult) (readerOk : Bool) (rec : RecState) :
    Nat → Session → List Nat × Session × List AppStage × List Ev
  | 0, s => ([], s, [], [])
  | Nat.succ fuel, s =>
    if s.currentSlideIndex < s.images.length - 1 then
      let rest := runSlides fb readerOk rec fuel
        { s with currentSlideIndex := s.currentSlideIndex + 1 }
      (s.currentSlideIndex :: rest.1, rest.2)
    else
      let out := stopRecordingAndGetFeedback fb readerOk rec s
      ([s.currentSlideIndex], out)

/-- The whole run from the moment the countdown reaches zero: capture
acquisition, data events delivered while the slideshow runs, slide
advancement, and the end-of-slideshow stop. -/
def runFromCountdownZero (captureOk : Bool) (events : List Nat)
    (fb : FbResult) (readerOk : Bool) (s : Session) :
    List Nat × Session × List AppStage × List Ev :=
  let (rec1, s1) := countdownZeroEffect captureOk s
  let rec2 := recordEvents events rec1
  runSlides fb readerOk rec2 s1.images.length s1

/-- Observable events of the countdown effect (page.tsx lines 208-221):
a tick is a value taken by `countdownValue` (shown to the user), tagged
with the wall-clock offset in ms at which it appears; `complete` is the
one execution of the countdown-zero branch. -/
inductive CdEvent where
  | tick (timeMs : Nat) (value : Nat)
  | complete (timeMs : Nat)
deriving DecidableEq, Repr

/-- The countdown effect run to quiescence from value `v` shown at time
`t`: while `v > 0` a 1000 ms timeout decrements it; at `v = 0` the
completion branch runs (once) and the stage leaves `countdown`, so the
effect never fires again. -/
def countdownRun : Nat → Nat → List CdEvent
  | t, 0 => [CdEvent.tick t 0, CdEvent.complete t]
  | t, Nat.succ v => CdEvent.tick t (v + 1) :: countdownRun (t + 1000) v

/-- The ticks of a countdown event list, as (time, value) pairs. -/
def cdTicks (l : List CdEvent) : List (Nat × Nat) :=
  l.filterMap fun e =>
    match e with
    | CdEvent.tick t v => some (t, v)
    | CdEvent.complete _ => none

/-- Number of completion events in a countdown event list. -/
def cdCompletes (l : List CdEvent) : Nat :=
  l.countP fun e =>
    match e with
    | CdEvent.complete _ => true
    | CdEvent.tick _ _ => false

/-- The progress value computed by the slide-progress interval
(page.tsx line 231): `Math.min(100, elapsed / SLIDE_DURATION_MS * 100)`. -/
def slideProgressAt (elapsedMs : Nat) : ℚ :=
  min 100 ((elapsedMs : ℚ) / (SLIDE_DURATION_MS : ℚ) * 100)

/-- The first `n` samples of the slide-progress interval for one slide:
the interval fires every 100 ms, so the k-th fire sees an elapsed time
of `100 * (k+1)` ms. -/
def progressSamples (n : Nat) : List ℚ :=
  (List.range n).map fun k => slideProgressAt (100 * (k + 1))

/-- The values `slideProgress` takes during one slide: the slideshow
effect first runs `setSlideProgress(0)` (page.tsx line 225), then the
interval samples follow. -/
def slideTrace (n : Nat) : List ℚ :=
  0 :: progressSamples n

/-- The three timer refs of the page: a timer can fire only while
pending (`setTimeout`/`setInterval` handle still active). -/
structure Timers where
  slideshowTimer : Bool
  countdownTimer : Bool
  slideProgressTimer : Bool
deriving DecidableEq, Repr

/-- The full mutable state of the page: session fields, recorder refs
and timer refs. -/
structure Machine where
  session : Session
  recorder : RecState
  timers : Timers
deriving DecidableEq

/-- `resetState` (page.tsx lines 41-59), field update by field update in
source order: reset every session field, discard the chunk buffer, stop
a recording recorder and drop it, clear all three timers, reset the
progress bar. -/
def resetState (m : Machine) : Machine :=
  let s := m.session
  let s := { s with topic := "" }
  let s := { s with images := [] }
  let s := { s with currentSlideIndex := 0 }
  let s := { s with countdownValue := COUNTDOWN_START }
  let s := { s with feedback := none }
  let s := { s with error := none }
  let s := { s with stage := AppStage.idle }
  let s := { s with audioUnavailable := false }
  let rec0 := { m.recorder with chunks := [] }
  let rec1 := if rec0.recording then { rec0 with recording := false } else rec0
  let rec2 : RecState := { rec1 with recording := false }
  let t := m.timers
  let t := { t with slideshowTimer := false }
  let t := { t with countdownTimer := false }
  let t := { t with slideProgressTimer := false }
  let s := { s with slideProgress := 0 }
  { session := s, recorder := rec2, timers := t }

/-- Fire of the countdown timeout (page.tsx line 210): only a pending
timer can run its callback; the callback decrements `countdownValue`. -/
def fireCountdownTimer (m : Machine) : Machine :=
  if m.timers.countdownTimer then
    { m with
        session := { m.session with countdownValue := m.session.countdownValue - 1 }
        timers := { m.timers with countdownTimer := false } }
  else m

/-- Fire of the slide timeout (page.tsx lines 239-245): advance the
slide or stop recording and fetch feedback. -/
def fireSlideshowTimer (fb : FbResult) (readerOk : Bool) (m : Machine) : Machine :=
  if m.timers.slideshowTimer then
    if m.session.currentSlideIndex < m.session.images.length - 1 then
      { m with
          session := { m.session with
                         currentSlideIndex := m.session.currentSlideIndex + 1 }
          timers := { m.timers with slideshowTimer := false } }
    else
      { m with
          session := (stopRecordingAndGetFeedback fb readerOk m.recorder m.session).1
          timers := { m.timers with slideshowTimer := false } }
  else m

/-- Fire of the slide-progress interval (page.tsx lines 229-236):
recompute the progress percentage from elapsed wall-clock time. -/
def fireSlideProgressTimer (elapsedMs : Nat) (m : Machine) : Machine :=
  if m.timers.slideProgressTimer then
    { m with session := { m.session with slideProgress := slideProgressAt elapsedMs } }
  else m

/-!  Theorems -/

/-- C8: submitting while the topic is empty or whitespace-only (the
validation trims the topic) leaves the stage unchanged at Idle, sets
the user-visible validation error, changes no other field and invokes
no collaborator. -/
theorem empty_topic_rejected (gen : GenResult) (s : Session)
    (hstage : s.stage = AppStage.idle) (h : jsTrim s.topic = "") :
    handleTopicSubmit gen s =
      ({ s with error := some "Please enter a topic." }, [], []) ∧
    (handleTopicSubmit gen s).1.stage = AppStage.idle := by
  refine ⟨by simp [handleTopicSubmit, h], ?_⟩
  simp [handleTopicSubmit, h, hstage]

/-- Witness for C8: the whitespace-only topic is rejected on the
initial session. -/
theorem empty_topic_rejected_witness :
    handleTopicSubmit (GenResult.err "x") { initialSession with topic := "  " } =
      ({ initialSession with topic := "  ", error := some "Please enter a topic." },
        [], []) ∧
    (handleTopicSubmit (GenResult.err "x")
        { initialSession with topic := "  " }).1.stage = AppStage.idle :=
  empty_topic_rejected (GenResult.err "x") { initialSession with topic := "  " }
    rfl (by decide)

/-- C4: for a valid (trim-non-empty) topic, when the image-generation
collaborator resolves with all three image handles present, the stage
trace is GeneratingImages then Countdown, `images` is populated with
exactly those three handles (length 3), and the countdown value is
still the fixed start value. -/
theorem topic_submit_success (r : GenResponse) (s : Session)
    (i1 i2 i3 : String)
    (h1 : r.image1 = some i1) (h2 : r.image2 = some i2) (h3 : r.image3 = some i3)
    (n1 : i1 ≠ "") (n2 : i2 ≠ "") (n3 : i3 ≠ "")
    (_hstage : s.stage = AppStage.idle) (htopic : jsTrim s.topic ≠ "")
    (hcd : s.countdownValue = COUNTDOWN_START) :
    (handleTopicSubmit (GenResult.ok r) s).2.1 =
        [AppStage.generatingImages, AppStage.countdown] ∧
    (handleTopicSubmit (GenResult.ok r) s).1.stage = AppStage.countdown ∧
    (handleTopicSubmit (GenResult.ok r) s).1.images = [i1, i2, i3] ∧
    (handleTopicSubmit (GenResult.ok r) s).1.images.length = 3 ∧
    (handleTopicSubmit (GenResult.ok r) s).1.countdownValue = COUNTDOWN_START := by
  simp [handleTopicSubmit, htopic, truthy, h1, h2, h3, n1, n2, n3, hcd]

/-- Witness for C4: a concrete successful generation on topic
"volcanoes" reaches Countdown with the three images stored. -/
theorem topic_submit_success_witness :
    (handleTopicSubmit (GenResult.ok ⟨some "a", some "b", some "c"⟩)
        { initialSession with topic := "volcanoes" }).2.1 =
        [AppStage.generatingImages, AppStage.countdown] ∧
    (handleTopicSubmit (GenResult.ok ⟨some "a", some "b", some "c"⟩)
        { initialSession with topic := "volcanoes" }).1.stage = AppStage.countdown ∧
    (handleTopicSubmit (GenResult.ok ⟨some "a", some "b", some "c"⟩)
        { initialSession with topic := "volcanoes" }).1.images = ["a", "b", "c"] ∧
    (handleTopicSubmit (GenResult.ok ⟨some "a", some "b", some "c"⟩)
        { initialSession with topic := "volcanoes" }).1.images.length = 3 ∧
    (handleTopicSubmit (GenResult.ok ⟨some "a", some "b", some "c"⟩)
        { initialSession with topic := "volcanoes" }).1.countdownValue = COUNTDOWN_START :=
  topic_submit_success ⟨some "a", some "b", some "c"⟩
    { initialSession with topic := "volcanoes" } "a" "b" "c"
    rfl rfl rfl (by decide) (by decide) (by decide) rfl (by decide) rfl

/-- C5: when generation rejects, or resolves with any of the three
image fields missing or empty (an incomplete result), the stage returns
to Idle, an error message is set, and `images` stays empty. -/
theorem topic_submit_failure (gen : GenResult) (s : Session)
    (htopic : jsTrim s.topic ≠ "") (himg : s.images = [])
    (hfail : ∀ r, gen = GenResult.ok r →
      (truthy r.image1 && truthy r.image2 && truthy r.image3) = false) :
    (handleTopicSubmit gen s).1.stage = AppStage.idle ∧
    (handleTopicSubmit gen s).1.error.isSome = true ∧
    (handleTopicSubmit gen s).1.images = [] := by
  cases gen with
  | ok r =>
    have h := hfail r rfl
    simp [handleTopicSubmit, htopic, h, himg]
  | err m => simp [handleTopicSubmit, htopic, himg]

/-- Witness for C5: a response carrying only two images sends the
session back to Idle with an error and no images. -/
theorem topic_submit_failure_witness :
    (handleTopicSubmit (GenResult.ok ⟨some "a", some "b", none⟩)
        { initialSession with topic := "volcanoes" }).1.stage = AppStage.idle ∧
    (handleTopicSubmit (GenResult.ok ⟨some "a", some "b", none⟩)
        { initialSession with topic := "volcanoes" }).1.error.isSome = true ∧
    (handleTopicSubmit (GenResult.ok ⟨some "a", some "b", none⟩)
        { initialSession with topic := "volcanoes" }).1.images = [] :=
  topic_submit_failure (GenResult.ok ⟨some "a", some "b", none⟩)
    { initialSession with topic := "volcanoes" } (by decide) rfl
    (by intro r hr; cases hr; rfl)

/-- C3 counterexample: with an active recorder whose chunk buffer is
empty (harvested payload of size 0), `stopRecordingAndGetFeedback`
still enters FetchingFeedback (page.tsx line 153 runs before the blob
size is examined), contradicting the claim that FetchingFeedback is
entered only when the payload is non-empty. -/
theorem fetching_entered_on_empty_capture :
    (⟨true, []⟩ : RecState).chunks.sum = 0 ∧
    AppStage.fetchingFeedback ∈
      (stopRecordingAndGetFeedback (FbResult.err "x") true ⟨true, []⟩
        { initialSession with stage := AppStage.slideshow,
                              images := ["a", "b", "c"],
                              currentSlideIndex := 2, topic := "t" }).2.1 ∧
    Ev.feedbackCall ∉
      (stopRecordingAndGetFeedback (FbResult.err "x") true ⟨true, []⟩
        { initialSession with stage := AppStage.slideshow,
                              images := ["a", "b", "c"],
                              currentSlideIndex := 2, topic := "t" }).2.2 := by
  decide

/-- C3 (amended): when capture was active but the harvested payload is
zero-length, the feedback collaborator is never invoked, the "no audio
captured" fallback is stored and the session reaches ShowFeedback; the
stage trace is FetchingFeedback then ShowFeedback, FetchingFeedback
being entered transiently before the payload size is examined. -/
theorem zero_capture_fallback (fb : FbResult) (readerOk : Bool)
    (rec : RecState) (s : Session)
    (hav : s.audioUnavailable = false) (hrec : rec.recording = true)
    (hsum : rec.chunks.sum = 0) :
    (stopRecordingAndGetFeedback fb readerOk rec s).1.stage = AppStage.showFeedback ∧
    (stopRecordingAndGetFeedback fb readerOk rec s).1.feedback = some noAudioFeedback ∧
    (stopRecordingAndGetFeedback fb readerOk rec s).2.2 = [] ∧
    (stopRecordingAndGetFeedback fb readerOk rec s).2.1 =
      [AppStage.fetchingFeedback, AppStage.showFeedback] := by
  simp [stopRecordingAndGetFeedback, hav, hrec, hsum]

/-- Witness for the amended C3: a concrete zero-byte capture. -/
theorem zero_capture_fallback_witness :
    (stopRecordingAndGetFeedback (FbResult.err "x") true ⟨true, []⟩
        { initialSession with stage := AppStage.slideshow }).1.stage
      = AppStage.showFeedback ∧
    (stopRecordingAndGetFeedback (FbResult.err "x") true ⟨true, []⟩
        { initialSession with stage := AppStage.slideshow }).1.feedback
      = some noAudioFeedback ∧
    (stopRecordingAndGetFeedback (FbResult.err "x") true ⟨true, []⟩
        { initialSession with stage := AppStage.slideshow }).2.2 = [] ∧
    (stopRecordingAndGetFeedback (FbResult.err "x") true ⟨true, []⟩
        { initialSession with stage := AppStage.slideshow }).2.1 =
      [AppStage.fetchingFeedback, AppStage.showFeedback] :=
  zero_capture_fallback (FbResult.err "x") true ⟨true, []⟩
    { initialSession with stage := AppStage.slideshow } rfl rfl rfl

/-- C7: on the non-empty-audio path (active recorder, positive payload)
the feedback collaborator is invoked exactly once in every outcome and
the session always ends in ShowFeedback with some feedback stored: on
collaborator success its four strings are stored verbatim; on
collaborator failure the "error fetching feedback" fallback is stored;
on audio-encoding failure the loadend handler still invokes the
collaborator (with a null data URI, which fails the flow's input
schema), so the same "error fetching feedback" fallback ends up stored
— no outcome escapes as an unhandled fault. -/
theorem feedback_path_total (fb : FbResult) (readerOk : Bool)
    (rec : RecState) (s : Session)
    (hav : s.audioUnavailable = false) (hrec : rec.recording = true)
    (hsum : rec.chunks.sum ≠ 0) :
    (stopRecordingAndGetFeedback fb readerOk rec s).1.stage = AppStage.showFeedback ∧
    (stopRecordingAndGetFeedback fb readerOk rec s).1.feedback.isSome = true ∧
    (stopRecordingAndGetFeedback fb readerOk rec s).2.2 = [Ev.feedbackCall] ∧
    (readerOk = true → ∀ f, fb = FbResult.ok f →
      (stopRecordingAndGetFeedback fb readerOk rec s).1.feedback = some f) ∧
    (readerOk = true → ∀ m, fb = FbResult.err m →
      (stopRecordingAndGetFeedback fb readerOk rec s).1.feedback
          = some errorFetchingFeedback) ∧
    (readerOk = false →
      (stopRecordingAndGetFeedback fb readerOk rec s).1.feedback
          = some errorFetchingFeedback) := by
  cases readerOk <;> cases fb <;>
    simp [stopRecordingAndGetFeedback, hav, hrec, hsum]

/-- Witness for C7: a concrete successful feedback call stores the
collaborator result verbatim. -/
theorem feedback_path_total_witness :
    (stopRecordingAndGetFeedback (FbResult.ok ⟨"c", "p", "r", "o"⟩) true
        ⟨true, [1200]⟩ { initialSession with stage := AppStage.slideshow }).1.stage
      = AppStage.showFeedback ∧
    (stopRecordingAndGetFeedback (FbResult.ok ⟨"c", "p", "r", "o"⟩) true
        ⟨true, [1200]⟩
        { initialSession with stage := AppStage.slideshow }).1.feedback.isSome = true :=
  have h := feedback_path_total (FbResult.ok ⟨"c", "p", "r", "o"⟩) true
    ⟨true, [1200]⟩ { initialSession with stage := AppStage.slideshow }
    rfl rfl (by decide)
  ⟨h.1, h.2.1⟩

/-- The chunk buffer built by the `ondataavailable` handler is the
positive-size events in arrival order. -/
theorem foldl_ondataavailable (evs : List Nat) (acc : List Nat) :
    evs.foldl ondataavailable acc = acc ++ evs.filter (fun e => decide (0 < e)) := by
  induction evs generalizing acc with
  | nil => simp
  | cons e es ih =>
    by_cases h : 0 < e
    · simp [ondataavailable, h, ih, List.append_assoc]
    · simp [ondataavailable, h, ih]

/-- `capturedChunks` as an explicit filter. -/
theorem capturedChunks_eq_filter (evs : List Nat) :
    capturedChunks evs = evs.filter (fun e => decide (0 < e)) := by
  simpa using foldl_ondataavailable evs []

/-- C10: every buffered chunk is strictly positive, the harvested
payload (sum of chunk sizes) is zero exactly when every data event had
size zero, and a capture consisting only of empty data events is
reported as "no audio captured" by `stopRecordingAndGetFeedback`. -/
theorem captured_chunks_positive (evs : List Nat) (fb : FbResult)
    (readerOk : Bool) (s : Session) (hav : s.audioUnavailable = false) :
    (∀ c ∈ capturedChunks evs, 0 < c) ∧
    ((capturedChunks evs).sum = 0 ↔ ∀ e ∈ evs, e = 0) ∧
    ((∀ e ∈ evs, e = 0) →
      (stopRecordingAndGetFeedback fb readerOk ⟨true, capturedChunks evs⟩ s).1.feedback
        = some noAudioFeedback) := by
  have hpos : ∀ c ∈ capturedChunks evs, 0 < c := by
    intro c hc
    rw [capturedChunks_eq_filter] at hc
    simpa using (List.of_mem_filter hc)
  have hiff : (capturedChunks evs).sum = 0 ↔ ∀ e ∈ evs, e = 0 := by
    rw [List.sum_eq_zero_iff, capturedChunks_eq_filter]
    constructor
    · intro h e he
      by_contra hne
      exact absurd (h e (List.mem_filter.mpr ⟨he, by simpa using Nat.pos_of_ne_zero hne⟩))
        (Nat.pos_of_ne_zero hne).ne'
    · intro h e he
      exact h e (List.mem_filter.mp he).1
  refine ⟨hpos, hiff, fun hz => ?_⟩
  have hsum : (capturedChunks evs).sum = 0 := hiff.mpr hz
  simp [stopRecordingAndGetFeedback, hav, hsum]

/-- Witness for C10: two empty data events buffer nothing and the stop
path reports "no audio captured". -/
theorem captured_chunks_positive_witness :
    (stopRecordingAndGetFeedback (FbResult.err "e") true
        ⟨true, capturedChunks [0, 0]⟩ initialSession).1.feedback
      = some noAudioFeedback :=
  (captured_chunks_positive [0, 0] (FbResult.err "e") true initialSession rfl).2.2
    (by decide)

/-- The countdown effect started at time `t` runs through the values
3, 2, 1, 0 at one-second spacing and completes with the last tick. -/
theorem countdown_run_eq (t : Nat) : countdownRun t COUNTDOWN_START =
    [CdEvent.tick t 3, CdEvent.tick (t + 1000) 2, CdEvent.tick (t + 2000) 1,
     CdEvent.tick (t + 3000) 0, CdEvent.complete (t + 3000)] := by
  show countdownRun t 3 = _
  simp [countdownRun]

/-- C6: a countdown started at any time `t` emits exactly
`COUNTDOWN_START + 1` tick values — `COUNTDOWN_START` down to and
including 0 — each exactly once, strictly decreasing, spaced 1000 ms
apart, after which the completion branch runs exactly once, after the
last tick. -/
theorem countdown_ticks_exact (t : Nat) :
    (cdTicks (countdownRun t COUNTDOWN_START)).map Prod.snd = [3, 2, 1, 0] ∧
    (cdTicks (countdownRun t COUNTDOWN_START)).length = COUNTDOWN_START + 1 ∧
    List.Chain' (fun a b => b < a)
      ((cdTicks (countdownRun t COUNTDOWN_START)).map Prod.snd) ∧
    ((cdTicks (countdownRun t COUNTDOWN_START)).map Prod.snd).Nodup ∧
    (cdTicks (countdownRun t COUNTDOWN_START)).map Prod.fst =
      [t, t + 1000, t + 2000, t + 3000] ∧
    cdCompletes (countdownRun t COUNTDOWN_START) = 1 ∧
    (countdownRun t COUNTDOWN_START).getLast? =
      some (CdEvent.complete (t + 3000)) := by
  rw [countdown_run_eq]
  exact ⟨by simp [cdTicks], by simp [cdTicks, COUNTDOWN_START],
    by simp [cdTicks], by simp [cdTicks], by simp [cdTicks],
    by simp [cdCompletes], by simp⟩

/-- The progress percentage is monotone in elapsed time. -/
theorem slideProgressAt_mono {a b : Nat} (h : a ≤ b) :
    slideProgressAt a ≤ slideProgressAt b := by
  unfold slideProgressAt
  have hc : (a : ℚ) ≤ (b : ℚ) := by exact_mod_cast h
  gcongr

/-- The progress percentage is never negative. -/
theorem slideProgressAt_nonneg (e : Nat) : 0 ≤ slideProgressAt e := by
  unfold slideProgressAt
  refine le_min (by norm_num) ?_
  have he : (0 : ℚ) ≤ (e : ℚ) := by positivity
  rw [SLIDE_DURATION_MS]
  positivity

/-- The progress percentage is clamped to at most 100. -/
theorem slideProgressAt_le_100 (e : Nat) : slideProgressAt e ≤ 100 :=
  min_le_left _ _

/-- Each interval sample (elapsed time at least 100 ms) is strictly
positive. -/
theorem slideProgressAt_pos (k : Nat) : 0 < slideProgressAt (100 * (k + 1)) := by
  unfold slideProgressAt
  refine lt_min (by norm_num) ?_
  rw [SLIDE_DURATION_MS]
  have h : (0 : ℚ) < ((100 * (k + 1) : Nat) : ℚ) := by
    exact_mod_cast Nat.succ_le_of_lt (by positivity)
  positivity

/-- C9: during one slide the progress values are monotonically
non-decreasing and clamped to [0, 100]; the trace of one slide starts
at 0 (the slideshow effect re-runs and resets the progress exactly when
the stage or `currentSlideIndex` changes, page.tsx line 225) and never
returns to 0 after the first interval sample, so no progress carries
over from one slide to the next. -/
theorem slide_progress_monotone (n : Nat) :
    List.Chain' (fun a b => a ≤ b) (slideTrace n) ∧
    (slideTrace n).all (fun x => decide (0 ≤ x ∧ x ≤ 100)) = true ∧
    (slideTrace n).head? = some 0 ∧
    (progressSamples n).all (fun x => decide (0 < x)) = true := by
  refine ⟨?_, ?_, rfl, ?_⟩
  · rw [slideTrace, List.chain'_cons']
    constructor
    · intro b hb
      have hmem : b ∈ progressSamples n := List.mem_of_mem_head? hb
      simp only [progressSamples, List.mem_map, List.mem_range] at hmem
      rcases hmem with ⟨k, _, rfl⟩
      exact slideProgressAt_nonneg _
    · rw [progressSamples, List.chain'_map]
      rcases n with _ | m
      · simp
      · rw [List.chain'_range_succ]
        intro i _
        exact slideProgressAt_mono (by omega)
  · rw [List.all_eq_true]
    intro x hx
    simp only [slideTrace, List.mem_cons, progressSamples, List.mem_map,
      List.mem_range] at hx
    rcases hx with rfl | ⟨k, _, rfl⟩
    · simp
    · simp [slideProgressAt_nonneg, slideProgressAt_le_100]
  · rw [List.all_eq_true]
    intro x hx
    simp only [progressSamples, List.mem_map, List.mem_range] at hx
    rcases hx with ⟨k, _, rfl⟩
    simp [slideProgressAt_pos]

/-- C1: when capture acquisition fails as the countdown reaches zero,
the session still enters Slideshow with slide index 0 and
`audioUnavailable` true; the slideshow visits all three slides; at
end-of-slideshow the feedback collaborator is never invoked, the
microphone-unavailable fallback (all four fields state microphone
unavailability) is stored, and the stage goes straight to ShowFeedback
(never through FetchingFeedback). -/
theorem capture_failure_degraded_run (events : List Nat) (fb : FbResult)
    (readerOk : Bool) (s : Session) (hlen : s.images.length = 3) :
    (countdownZeroEffect false s).2.stage = AppStage.slideshow ∧
    (countdownZeroEffect false s).2.currentSlideIndex = 0 ∧
    (countdownZeroEffect false s).2.audioUnavailable = true ∧
    (runFromCountdownZero false events fb readerOk s).1 = [0, 1, 2] ∧
    (runFromCountdownZero false events fb readerOk s).2.1.stage
      = AppStage.showFeedback ∧
    (runFromCountdownZero false events fb readerOk s).2.1.feedback
      = some micUnavailableFeedback ∧
    (runFromCountdownZero false events fb readerOk s).2.2.1
      = [AppStage.showFeedback] ∧
    (runFromCountdownZero false events fb readerOk s).2.2.2 = [] := by
  rcases List.length_eq_three.mp hlen with ⟨a, b, c, himg⟩
  refine ⟨rfl, rfl, rfl, ?_⟩
  simp [runFromCountdownZero, countdownZeroEffect, startRecording,
    recordEvents, runSlides, stopRecordingAndGetFeedback, himg]

/-- Witness for C1: a concrete failed-capture session runs to
ShowFeedback with the fallback and never calls the collaborator. -/
theorem capture_failure_degraded_run_witness :
    (countdownZeroEffect false
        { initialSession with images := ["a", "b", "c"],
                              stage := AppStage.countdown }).2.stage
      = AppStage.slideshow ∧
    (countdownZeroEffect false
        { initialSession with images := ["a", "b", "c"],
                              stage := AppStage.countdown }).2.currentSlideIndex = 0 ∧
    (countdownZeroEffect false
        { initialSession with images := ["a", "b", "c"],
                              stage := AppStage.countdown }).2.audioUnavailable = true ∧
    (runFromCountdownZero false [5] (FbResult.err "x") true
        { initialSession with images := ["a", "b", "c"],
                              stage := AppStage.countdown }).1 = [0, 1, 2] ∧
    (runFromCountdownZero false [5] (FbResult.err "x") true
        { initialSession with images := ["a", "b", "c"],
                              stage := AppStage.countdown }).2.1.stage
      = AppStage.showFeedback ∧
    (runFromCountdownZero false [5] (FbResult.err "x") true
        { initialSession with images := ["a", "b", "c"],
                              stage := AppStage.countdown }).2.1.feedback
      = some micUnavailableFeedback ∧
    (runFromCountdownZero false [5] (FbResult.err "x") true
        { initialSession with images := ["a", "b", "c"],
                              stage := AppStage.countdown }).2.2.1
      = [AppStage.showFeedback] ∧
    (runFromCountdownZero false [5] (FbResult.err "x") true
        { initialSession with images := ["a", "b", "c"],
                              stage := AppStage.countdown }).2.2.2 = [] :=
  capture_failure_degraded_run [5] (FbResult.err "x") true
    { initialSession with images := ["a", "b", "c"],
                          stage := AppStage.countdown } rfl

/-- C2: `resetState` returns every session field to its initial value
(topic empty, images empty, slide index 0, countdown at the fixed
start, feedback and error absent, progress 0, audio available, stage
Idle), stops any in-progress capture and empties the chunk buffer, and
clears all three timer handles; since a timer callback can only mutate
state while its handle is pending, a fire arriving after the reset —
including one racing the cancellation — leaves the machine unchanged. -/
theorem reset_cancels_everything (m : Machine) (fb : FbResult)
    (readerOk : Bool) (e : Nat) :
    (resetState m).session = initialSession ∧
    (resetState m).recorder.recording = false ∧
    (resetState m).recorder.chunks = [] ∧
    (resetState m).timers.slideshowTimer = false ∧
    (resetState m).timers.countdownTimer = false ∧
    (resetState m).timers.slideProgressTimer = false ∧
    fireCountdownTimer (resetState m) = resetState m ∧
    fireSlideshowTimer fb readerOk (resetState m) = resetState m ∧
    fireSlideProgressTimer e (resetState m) = resetState m := by
  refine ⟨rfl, ?_, ?_, rfl, rfl, rfl, ?_, ?_, ?_⟩ <;>
    simp [resetState, initialSession, fireCountdownTimer,
      fireSlideshowTimer, fireSlideProgressTimer, apply_ite]

end ImpromptuPresenter
